import Mathlib

/-!
Verification of the SGD_AGC optimizer (`optim.py`): unitwise norms,
adaptive gradient clipping, momentum accumulation, and the per-step
parameter update, shallowly embedded over real-valued tensors.

A tensor is modelled as a shape together with flat row-major data over ℝ
(the real numbers stand in for the floating-point values of the source).
-/

namespace NFNet

/-- A tensor: a shape (list of dimension sizes) and flat row-major data. -/
structure Tensor where
  shape : List ℕ
  data : List ℝ

/-- `torch.squeeze(x).shape`: the shape with all size-1 dimensions dropped.
Only the length of this list (the "effective rank") is inspected by
`unitwise_norm`. -/
def squeezeShape (s : List ℕ) : List ℕ := s.filter (fun d => d ≠ 1)

/-- Shape of the tensor returned by `unitwise_norm` for input shape `s`
(optim.py lines 8-24):
* effective rank ≤ 1: reduce along axis 0, `keepdims=False`, so the leading
  dimension is dropped;
* original rank 2 or 3: reduce along axis 1 with `keepdims=True`;
* original rank 4: reduce along axes 1,2,3 with `keepdims=True`.
For unsupported shapes the source raises before any reduction, so the value
returned here is never used. -/
def normShape (s : List ℕ) : List ℕ :=
  if (squeezeShape s).length ≤ 1 then s.drop 1
  else if s.length = 2 ∨ s.length = 3 then
    match s with
    | d0 :: _ :: rest => d0 :: 1 :: rest
    | _ => s
  else if s.length = 4 then
    match s with
    | d0 :: _ => [d0, 1, 1, 1]
    | _ => s
  else s

/-- The number of "units" of the reduction: the number of elements of the
norm tensor, i.e. the product of `normShape`. -/
def unitCount (s : List ℕ) : ℕ := (normShape s).prod

/-- Which unit (flat index into the norm tensor) the element at flat
row-major index `i` of a tensor of shape `s` belongs to.  This is exactly
the index map induced by the axis reductions of `unitwise_norm`, and it is
also the broadcast map used when the per-unit norm tensor is combined
elementwise with the full tensor (PyTorch broadcasting aligns trailing
dimensions):
* effective rank ≤ 1 (shape `d0 :: rest`, axis-0 reduction, no keepdim):
  the reduction collects the flat indices congruent mod `rest.prod`, so
  element `i` maps to `i % rest.prod`;
* rank 2/3 (shape `d0 :: d1 :: rest`, axis-1 reduction, keepdim): element
  `(a, k, j)` at flat index `a*d1*R + k*R + j` (with `R = rest.prod`) maps
  to the norm element `(a, 0, j)` at flat index `a*R + j`;
* rank 4 (shape `[d0,d1,d2,d3]`, axes 1,2,3, keepdim): element `i` maps to
  its leading coordinate `i / (d1*d2*d3)`. -/
def unitIndex (s : List ℕ) (i : ℕ) : ℕ :=
  if (squeezeShape s).length ≤ 1 then i % (s.drop 1).prod
  else if s.length = 2 ∨ s.length = 3 then
    match s with
    | _ :: d1 :: rest => (i / (d1 * rest.prod)) * rest.prod + i % rest.prod
    | _ => i
  else if s.length = 4 then i / (s.drop 1).prod
  else i

/-- `torch.sqrt(torch.sum(torch.square(x), axis=axis, keepdim=keepdims))`
(optim.py line 24): for each unit, the square root of the sum of squares of
the elements of that unit.  The per-branch axis sums of the source are
expressed uniformly through `unitIndex`, which collects for each unit
exactly the flat indices the corresponding axis reduction sums over. -/
noncomputable def normAt (x : Tensor) : Tensor :=
  ⟨normShape x.shape,
   (List.range (unitCount x.shape)).map (fun u =>
     Real.sqrt ((((List.range x.data.length).filter
       (fun i => unitIndex x.shape i = u)).map
       (fun i => (x.data.getD i 0) ^ 2)).sum))⟩

/-- `unitwise_norm` (optim.py lines 7-24).  The source raises
`ValueError` exactly when none of the three shape branches applies:
the squeezed rank is ≥ 2 and the original rank is not 2, 3 or 4. -/
noncomputable def unitwise_norm (x : Tensor) : Except String Tensor :=
  if (squeezeShape x.shape).length ≤ 1 ∨ x.shape.length = 2 ∨
      x.shape.length = 3 ∨ x.shape.length = 4 then
    .ok (normAt x)
  else
    .error "Got a parameter with len(shape) not in [1, 2, 3, 4]!"

/-- `a + b * c` elementwise: PyTorch's `a.add(b, alpha=c)` (and the in-place
`add_`, whose effect is modelled by rebinding). -/
def addScaled (a b : Tensor) (c : ℝ) : Tensor :=
  ⟨a.shape, List.zipWith (fun x y => x + y * c) a.data b.data⟩

/-- `t * c` elementwise: PyTorch's `mul_(c)` (effect modelled by rebinding). -/
def tscale (t : Tensor) (c : ℝ) : Tensor :=
  ⟨t.shape, t.data.map (fun x => x * c)⟩

/-- Adaptive gradient clipping (optim.py lines 79-86).  With `clipping`
absent the gradient passes through untouched.  Otherwise, per the source:
`param_norm = max(unitwise_norm(p), eps)`, `grad_norm = unitwise_norm(g)`,
`max_norm = param_norm * clipping`, and the result selects, elementwise,
`g * (max_norm / max(grad_norm, 1e-6))` where `grad_norm > max_norm` and
`g` elsewhere.  The per-unit norm tensors broadcast against the full
gradient shape through `unitIndex` (in the optimizer `p` and `g` always
share a shape, so one index map serves both); the elementwise `where` and
the broadcast multiplications are fused into one map over the flat data. -/
noncomputable def clip (p g : Tensor) (clipping : Option ℝ) (eps : ℝ) :
    Except String Tensor :=
  match clipping with
  | none => .ok g
  | some c => do
    let pn ← unitwise_norm p
    let gn ← unitwise_norm g
    .ok ⟨g.shape,
      (List.range g.data.length).map (fun i =>
        let u := unitIndex g.shape i
        let maxNorm := (max (pn.data.getD u 0) eps) * c
        let gradNorm := gn.data.getD u 0
        if gradNorm > maxNorm then
          g.data.getD i 0 * (maxNorm / max gradNorm (1 / 1000000))
        else
          g.data.getD i 0)⟩

/-- Optimizer state: a momentum buffer per parameter identity
(`self.state[p]['momentum_buffer']`). -/
def OptState : Type := ℕ → Option Tensor

/-- The empty optimizer state: no buffers. -/
def OptState.empty : OptState := fun _ => none

/-- Momentum accumulation (optim.py lines 91-101).  If no buffer exists for
`key`, one is created as a value copy of the incoming gradient
(`torch.clone(d_p).detach()`); otherwise the stored buffer is updated in
place to `buf * momentum + grad * (1 - dampening)`.  In either case the
combined gradient is `grad + buf * momentum` under nesterov and the buffer
itself otherwise.  Returns the updated state and the combined gradient. -/
noncomputable def accumulate (st : OptState) (key : ℕ) (grad : Tensor)
    (momentum dampening : ℝ) (nesterov : Bool) : OptState × Tensor :=
  let buf : Tensor :=
    match st key with
    | none => grad
    | some buf0 => addScaled (tscale buf0 momentum) grad (1 - dampening)
  let st' : OptState := fun k => if k = key then some buf else st k
  (st', if nesterov then addScaled grad buf momentum else buf)

/-- A parameter: a stable identity (the key into `OptState`), its current
value, and its gradient when present (`p.grad`, `None` when absent). -/
structure Param where
  id : ℕ
  value : Tensor
  grad : Option Tensor

/-- A parameter group: the parameters plus the hyperparameter bundle
(optim.py lines 39-44). -/
structure Group where
  params : List Param
  lr : ℝ
  momentum : ℝ
  dampening : ℝ
  weight_decay : ℝ
  nesterov : Bool
  clipping : Option ℝ
  eps : ℝ

/-- The body of the per-parameter loop of `SGD_AGC.step` (optim.py lines
72-103): skip when the gradient is absent; otherwise clip, apply weight
decay, apply momentum, and update the parameter in place by
`p.add_(d_p, alpha=-lr)`.  Returns the updated parameter and state, or
propagates the shape error raised by clipping. -/
noncomputable def stepParam (g : Group) (st : OptState) (p : Param) :
    Except String (Param × OptState) :=
  match p.grad with
  | none => .ok (p, st)
  | some gr => do
    let d1 ← clip p.value gr g.clipping g.eps
    let d2 := if g.weight_decay ≠ 0 then addScaled d1 p.value g.weight_decay else d1
    let (st', d3) :=
      if g.momentum ≠ 0 then accumulate st p.id d2 g.momentum g.dampening g.nesterov
      else (st, d2)
    .ok ({ p with value := addScaled p.value d3 (-g.lr) }, st')

/-- Process the parameters of one group in order, threading the state. -/
noncomputable def stepParams (g : Group) (st : OptState) :
    List Param → Except String (List Param × OptState)
  | [] => .ok ([], st)
  | p :: rest => do
    let (p', st') ← stepParam g st p
    let (rest', st'') ← stepParams g st' rest
    .ok (p' :: rest', st'')

/-- `SGD_AGC.step` (optim.py lines 55-105) without the optional closure
(the closure only recomputes the loss through the external autodiff engine
before any update): process the groups in order, each with its own
hyperparameters, returning the updated groups and optimizer state. -/
noncomputable def step (st : OptState) :
    List Group → Except String (List Group × OptState)
  | [] => .ok ([], st)
  | g :: rest => do
    let (ps', st') ← stepParams g st g.params
    let (rest', st'') ← step st' rest
    .ok ({ g with params := ps' } :: rest', st'')

/-- One entry of the `params` constructor argument when explicit parameter
groups are supplied: a set of parameters together with per-group overrides
of any subset of the hyperparameters (`none` = inherit the constructor
default). -/
structure GroupSpec where
  params : List Param
  lrOv : Option ℝ := none
  momentumOv : Option ℝ := none
  dampeningOv : Option ℝ := none
  weight_decayOv : Option ℝ := none
  nesterovOv : Option Bool := none
  clippingOv : Option (Option ℝ) := none
  epsOv : Option ℝ := none

/-- `SGD_AGC.__init__` (optim.py lines 30-48): validate the top-level
hyperparameters (`lr`, `momentum`, `weight_decay`, then the nesterov
constraint) and hand the groups to the base class.

Modelled from the spec: the base-class `Optimizer.__init__` merge is
external library code; per §6 each explicit group overrides any subset of
the hyperparameters and inherits the constructor defaults for the rest.
The per-group overrides themselves are never validated. -/
noncomputable def SGD_AGC_init (paramGroups : List GroupSpec) (lr : ℝ) (momentum : ℝ)
    (dampening : ℝ) (weight_decay : ℝ) (nesterov : Bool)
    (clipping : Option ℝ) (eps : ℝ) : Except String (List Group) :=
  if lr < 0 then .error "Invalid learning rate"
  else if momentum < 0 then .error "Invalid momentum value"
  else if weight_decay < 0 then .error "Invalid weight_decay value"
  else if nesterov ∧ (momentum ≤ 0 ∨ dampening ≠ 0) then
    .error "Nesterov momentum requires a momentum and zero dampening"
  else .ok (paramGroups.map (fun gs =>
    { params := gs.params
      lr := gs.lrOv.getD lr
      momentum := gs.momentumOv.getD momentum
      dampening := gs.dampeningOv.getD dampening
      weight_decay := gs.weight_decayOv.getD weight_decay
      nesterov := gs.nesterovOv.getD nesterov
      clipping := gs.clippingOv.getD clipping
      eps := gs.epsOv.getD eps }))

/-! ## Helper lemmas -/

@[simp] theorem okBind {ε α β : Type _} (a : α) (f : α → Except ε β) :
    (Except.ok a : Except ε α) >>= f = f a := rfl

@[simp] theorem errBind {ε α β : Type _} (e : ε) (f : α → Except ε β) :
    (Except.error e : Except ε α) >>= f = Except.error e := rfl

/-! ## Theorems about the momentum accumulator -/

/-- Claim C1, counterexample: with `momentum = 0.9`, `nesterov = true` and
no existing buffer, `accumulate` does not return the incoming gradient
`[1.0]` as-is; it returns `[1.9] = grad + buffer * momentum`.  This refutes
the claim that the first step returns the gradient as-is for any nesterov
flag. -/
theorem c1_counterexample :
    (accumulate OptState.empty 0 ⟨[1], [1]⟩ (9/10) 0 true).2 ≠ ⟨[1], [1]⟩ ∧
    (accumulate OptState.empty 0 ⟨[1], [1]⟩ (9/10) 0 true).2 = ⟨[1], [19/10]⟩ := by
  refine ⟨?_, ?_⟩
  · simp [accumulate, OptState.empty, addScaled, tscale]
  · simp [accumulate, OptState.empty, addScaled, tscale]
    norm_num

/-- Claim C1, amended: with no existing buffer for `key`, `accumulate`
stores a value copy of the incoming gradient as the new buffer; the
combined gradient it returns is the gradient as-is when `nesterov` is
false, and `grad + buffer * momentum` (elementwise, with the fresh buffer
equal to `grad`) when `nesterov` is true. -/
theorem c1_accumulate_first_step (st : OptState) (key : ℕ) (grad : Tensor)
    (momentum dampening : ℝ) (nesterov : Bool) (h : st key = none) :
    (accumulate st key grad momentum dampening nesterov).1 key = some grad ∧
    (nesterov = false →
      (accumulate st key grad momentum dampening nesterov).2 = grad) ∧
    (nesterov = true →
      (accumulate st key grad momentum dampening nesterov).2 =
        addScaled grad grad momentum) := by
  cases nesterov <;> simp [accumulate, h]

/-- Witness for `c1_accumulate_first_step` at a concrete input. -/
theorem c1_accumulate_first_step_witness :
    OptState.empty 0 = none ∧
    ((accumulate OptState.empty 0 ⟨[1], [1]⟩ (1/2) 0 false).1 0 =
        some ⟨[1], [1]⟩ ∧
      (false = false →
        (accumulate OptState.empty 0 ⟨[1], [1]⟩ (1/2) 0 false).2 = ⟨[1], [1]⟩) ∧
      (false = true →
        (accumulate OptState.empty 0 ⟨[1], [1]⟩ (1/2) 0 false).2 =
          addScaled ⟨[1], [1]⟩ ⟨[1], [1]⟩ (1/2))) :=
  ⟨rfl, c1_accumulate_first_step OptState.empty 0 ⟨[1], [1]⟩ (1/2) 0 false rfl⟩

/-- Claim C5: starting from the empty state, two `accumulate` calls for the
same key with `momentum = 0.9`, `dampening = 0`, `nesterov = false` on
gradients `[1.0]` then `[1.0]` store buffer `[1.0]` after the first call
and `[1.9]` after the second, and the second call returns `[1.9]`; the
buffer update persists across calls. -/
theorem c5_momentum_persistence :
    (accumulate OptState.empty 0 ⟨[1], [1]⟩ (9/10) 0 false).1 0 =
      some ⟨[1], [1]⟩ ∧
    (accumulate OptState.empty 0 ⟨[1], [1]⟩ (9/10) 0 false).2 = ⟨[1], [1]⟩ ∧
    (accumulate (accumulate OptState.empty 0 ⟨[1], [1]⟩ (9/10) 0 false).1 0
        ⟨[1], [1]⟩ (9/10) 0 false).1 0 = some ⟨[1], [19/10]⟩ ∧
    (accumulate (accumulate OptState.empty 0 ⟨[1], [1]⟩ (9/10) 0 false).1 0
        ⟨[1], [1]⟩ (9/10) 0 false).2 = ⟨[1], [19/10]⟩ := by
  refine ⟨rfl, rfl, ?_, ?_⟩ <;>
    simp [accumulate, OptState.empty, addScaled, tscale] <;> norm_num

/-! ## Theorems about the step orchestration -/

/-- Claim C6: one group, a single scalar parameter `p = 2.0` with gradient
`1.0`, `lr = 0.1`, `momentum = 0`, `weight_decay = 0`, clipping absent:
one `step` updates the parameter in place to `1.9 = 2.0 - 1.0 * 0.1` and
leaves the state untouched. -/
theorem c6_end_to_end_step :
    step OptState.empty
      [{ params := [⟨0, ⟨[], [2]⟩, some ⟨[], [1]⟩⟩], lr := 1/10, momentum := 0,
         dampening := 0, weight_decay := 0, nesterov := false, clipping := none,
         eps := 1/1000 }] =
    .ok ([{ params := [⟨0, ⟨[], [19/10]⟩, some ⟨[], [1]⟩⟩], lr := 1/10,
            momentum := 0, dampening := 0, weight_decay := 0, nesterov := false,
            clipping := none, eps := 1/1000 }], OptState.empty) := by
  simp [step, stepParams, stepParam, clip, addScaled]
  norm_num

/-- Claim C7: a parameter whose gradient is absent is skipped entirely by
the per-parameter loop of `step`: its value is unchanged, no momentum
buffer is created for it (the whole state is unchanged), and no error is
raised, for arbitrary group hyperparameters and arbitrary prior state. -/
theorem c7_skip_no_grad (g : Group) (st : OptState) (p : Param)
    (h : p.grad = none) :
    stepParam g st p = .ok (p, st) ∧
    step st [{ g with params := [p] }] =
      .ok ([{ g with params := [p] }], st) := by
  refine ⟨?_, ?_⟩ <;> simp [step, stepParams, stepParam, h]

/-- Witness for `c7_skip_no_grad` at a concrete input. -/
theorem c7_skip_no_grad_witness :
    (⟨0, ⟨[], [1]⟩, none⟩ : Param).grad = none ∧
    (stepParam
        { params := [], lr := 1/10, momentum := 9/10, dampening := 0,
          weight_decay := 1/100, nesterov := true, clipping := some (1/100),
          eps := 1/1000 }
        OptState.empty ⟨0, ⟨[], [1]⟩, none⟩ =
      .ok (⟨0, ⟨[], [1]⟩, none⟩, OptState.empty) ∧
    step OptState.empty
        [{ params := [⟨0, ⟨[], [1]⟩, none⟩], lr := 1/10, momentum := 9/10,
           dampening := 0, weight_decay := 1/100, nesterov := true,
           clipping := some (1/100), eps := 1/1000 }] =
      .ok ([{ params := [⟨0, ⟨[], [1]⟩, none⟩], lr := 1/10, momentum := 9/10,
              dampening := 0, weight_decay := 1/100, nesterov := true,
              clipping := some (1/100), eps := 1/1000 }], OptState.empty)) :=
  ⟨rfl, c7_skip_no_grad
      { params := [], lr := 1/10, momentum := 9/10, dampening := 0,
        weight_decay := 1/100, nesterov := true, clipping := some (1/100),
        eps := 1/1000 }
      OptState.empty ⟨0, ⟨[], [1]⟩, none⟩ rfl⟩

/-! ## Theorems about construction and validation -/

/-- Claim C8: construction fails with a config error, producing no
optimizer, exactly when `lr < 0`, `momentum < 0`, `weight_decay < 0`, or
`nesterov` is set with `momentum ≤ 0` or `dampening ≠ 0`; in particular
`lr = -0.1`, `momentum = -1`, and `nesterov` with `momentum = 0` each
fail. -/
theorem c8_init_validation :
    (∀ (pgs : List GroupSpec) (lr momentum dampening weight_decay : ℝ)
        (nesterov : Bool) (clipping : Option ℝ) (eps : ℝ),
      (∃ e, SGD_AGC_init pgs lr momentum dampening weight_decay nesterov
          clipping eps = .error e) ↔
      (lr < 0 ∨ momentum < 0 ∨ weight_decay < 0 ∨
        (nesterov = true ∧ (momentum ≤ 0 ∨ dampening ≠ 0)))) ∧
    (∃ e, SGD_AGC_init [] (-(1/10)) 0 0 0 false none (1/1000) = .error e) ∧
    (∃ e, SGD_AGC_init [] (1/10) (-1) 0 0 false none (1/1000) = .error e) ∧
    (∃ e, SGD_AGC_init [] (1/10) 0 0 0 true none (1/1000) = .error e) := by
  refine ⟨?_, ?_, ?_, ?_⟩
  · intro pgs lr momentum dampening weight_decay nesterov clipping eps
    unfold SGD_AGC_init
    split_ifs with h1 h2 h3 h4 <;> simp_all
  · exact ⟨"Invalid learning rate", by norm_num [SGD_AGC_init]⟩
  · exact ⟨"Invalid momentum value", by norm_num [SGD_AGC_init]⟩
  · exact ⟨"Nesterov momentum requires a momentum and zero dampening",
      by norm_num [SGD_AGC_init]⟩

/-- Claim C10: per-group hyperparameter overrides are never validated.
A group overriding `lr` to `-1` is accepted without error even though the
same value at top level would be rejected, the override is stored as-is,
and a subsequent step uses it as-is (here the negative learning rate makes
the parameter move along the gradient: `1 + 1 * 1 = 2`). -/
theorem c10_group_override_unvalidated :
    SGD_AGC_init
        [{ params := [⟨0, ⟨[], [1]⟩, some ⟨[], [1]⟩⟩], lrOv := some (-1) }]
        (1/10) 0 0 0 false none (1/1000) =
      .ok [{ params := [⟨0, ⟨[], [1]⟩, some ⟨[], [1]⟩⟩], lr := -1,
             momentum := 0, dampening := 0, weight_decay := 0,
             nesterov := false, clipping := none, eps := 1/1000 }] ∧
    step OptState.empty
        [{ params := [⟨0, ⟨[], [1]⟩, some ⟨[], [1]⟩⟩], lr := -1,
           momentum := 0, dampening := 0, weight_decay := 0,
           nesterov := false, clipping := none, eps := 1/1000 }] =
      .ok ([{ params := [⟨0, ⟨[], [2]⟩, some ⟨[], [1]⟩⟩], lr := -1,
              momentum := 0, dampening := 0, weight_decay := 0,
              nesterov := false, clipping := none, eps := 1/1000 }],
           OptState.empty) := by
  constructor
  · simp [SGD_AGC_init]
  · simp [step, stepParams, stepParam, clip, addScaled]
    norm_num

/-! ## Helper lemmas about `normAt` and flat indexing -/

theorem rangeMapGetD {α : Type _} (f : ℕ → α) (d : α) {n u : ℕ} (h : u < n) :
    ((List.range n).map f).getD u d = f u := by
  rw [List.getD_eq_getElem _ _ (by simpa using h)]
  simp

theorem rangeMapGetD_self (l : List ℝ) :
    (List.range l.length).map (fun i => l.getD i 0) = l := by
  apply List.ext_getElem (by simp)
  intro i h1 h2
  simp only [List.getElem_map, List.getElem_range]
  exact List.getD_eq_getElem _ _ h2

theorem unitwise_norm_ok {x t : Tensor} (h : unitwise_norm x = .ok t) :
    t = normAt x := by
  unfold unitwise_norm at h
  split_ifs at h with hcond
  · simpa using h.symm

theorem normAt_data_length (x : Tensor) :
    (normAt x).data.length = unitCount x.shape := by
  simp [normAt]

theorem normAt_shape (x : Tensor) : (normAt x).shape = normShape x.shape := rfl

theorem normAt_getD_nonneg (x : Tensor) (u : ℕ) :
    0 ≤ (normAt x).data.getD u 0 := by
  rcases lt_or_le u (normAt x).data.length with h | h
  · rw [normAt_data_length] at h
    show 0 ≤ ((List.range (unitCount x.shape)).map _).getD u 0
    rw [rangeMapGetD _ _ h]
    exact Real.sqrt_nonneg _
  · rw [List.getD_eq_default _ _ h]

theorem normAt_getD_eq (x : Tensor) {u : ℕ} (h : u < unitCount x.shape) :
    (normAt x).data.getD u 0 =
      Real.sqrt ((((List.range x.data.length).filter
        (fun i => unitIndex x.shape i = u)).map
        (fun i => (x.data.getD i 0) ^ 2)).sum) := by
  show ((List.range (unitCount x.shape)).map _).getD u 0 = _
  rw [rangeMapGetD _ _ h]

theorem normAt_getD_eq2 (s : List ℕ) (d : List ℝ) {u : ℕ}
    (h : u < unitCount s) :
    (normAt ⟨s, d⟩).data.getD u 0 =
      Real.sqrt ((((List.range d.length).filter
        (fun i => unitIndex s i = u)).map
        (fun i => (d.getD i 0) ^ 2)).sum) :=
  normAt_getD_eq ⟨s, d⟩ h

theorem sum_map_sq_nonneg (l : List ℕ) (f : ℕ → ℝ) :
    0 ≤ (l.map (fun i => f i ^ 2)).sum := by
  induction l with
  | nil => simp
  | cons a l ih => simpa using add_nonneg (sq_nonneg (f a)) ih

/-! ## Theorems about `unitwise_norm` shape handling (C2) -/

/-- Claim C2, counterexample: the rank-5 tensor of shape `(1,1,1,1,2)` has
rank outside `{1,2,3,4}`, yet `unitwise_norm` succeeds on it: after
squeezing away size-1 dimensions its effective rank is 1, so the first
branch of the shape dispatch applies and no shape error is raised. -/
theorem c2_counterexample :
    (⟨[1, 1, 1, 1, 2], [3, 4]⟩ : Tensor).shape.length = 5 ∧
    (⟨[1, 1, 1, 1, 2], [3, 4]⟩ : Tensor).shape.length ∉ ([1, 2, 3, 4] : List ℕ) ∧
    ∃ t, unitwise_norm ⟨[1, 1, 1, 1, 2], [3, 4]⟩ = .ok t := by
  refine ⟨rfl, by decide, normAt ⟨[1, 1, 1, 1, 2], [3, 4]⟩, ?_⟩
  unfold unitwise_norm
  rw [if_pos]
  exact Or.inl (by decide)

/-- Claim C2, amended: every tensor whose rank after dropping size-1
dimensions is at least 2 and whose original rank is outside `{2,3,4}`
(hence outside `{1,2,3,4}`) makes `unitwise_norm` fail with the shape
error, and during a step with clipping enabled the error propagates to the
caller, whether the offending tensor is the parameter or the gradient. -/
theorem c2_unitwise_norm_shape_error (x : Tensor)
    (hsq : 2 ≤ (squeezeShape x.shape).length)
    (hr : ¬(x.shape.length = 2 ∨ x.shape.length = 3 ∨ x.shape.length = 4)) :
    unitwise_norm x =
      .error "Got a parameter with len(shape) not in [1, 2, 3, 4]!" ∧
    (∀ (g : Group) (st : OptState) (p : Param) (c : ℝ),
      g.clipping = some c → p.value = x → p.grad.isSome →
      stepParam g st p =
        .error "Got a parameter with len(shape) not in [1, 2, 3, 4]!" ∧
      step st [{ g with params := [p] }] =
        .error "Got a parameter with len(shape) not in [1, 2, 3, 4]!") ∧
    (∀ (g : Group) (st : OptState) (p : Param) (c : ℝ) (pt : Tensor),
      g.clipping = some c → p.grad = some x →
      unitwise_norm p.value = .ok pt →
      stepParam g st p =
        .error "Got a parameter with len(shape) not in [1, 2, 3, 4]!") := by
  have herr : unitwise_norm x =
      .error "Got a parameter with len(shape) not in [1, 2, 3, 4]!" := by
    unfold unitwise_norm
    rw [if_neg]
    intro habs
    rcases habs with h | h | h | h
    · omega
    · exact hr (Or.inl h)
    · exact hr (Or.inr (Or.inl h))
    · exact hr (Or.inr (Or.inr h))
  refine ⟨herr, ?_, ?_⟩
  · intro g st p c hclip hval hgrad
    obtain ⟨gr, hgr⟩ := Option.isSome_iff_exists.mp hgrad
    constructor
    · simp [stepParam, hgr, clip, hclip, hval, herr]
    · simp [step, stepParams, stepParam, hgr, clip, hclip, hval, herr]
  · intro g st p c pt hclip hgrad hok
    simp [stepParam, hgrad, clip, hclip, hok, herr]

/-- Witness for `c2_unitwise_norm_shape_error` at the concrete shape
`(2,2,1,1,1)`: squeezed rank 2, original rank 5. -/
theorem c2_unitwise_norm_shape_error_witness :
    2 ≤ (squeezeShape (⟨[2, 2, 1, 1, 1], [1, 2, 3, 4]⟩ : Tensor).shape).length ∧
    ¬((⟨[2, 2, 1, 1, 1], [1, 2, 3, 4]⟩ : Tensor).shape.length = 2 ∨
      (⟨[2, 2, 1, 1, 1], [1, 2, 3, 4]⟩ : Tensor).shape.length = 3 ∨
      (⟨[2, 2, 1, 1, 1], [1, 2, 3, 4]⟩ : Tensor).shape.length = 4) ∧
    unitwise_norm ⟨[2, 2, 1, 1, 1], [1, 2, 3, 4]⟩ =
      .error "Got a parameter with len(shape) not in [1, 2, 3, 4]!" :=
  ⟨by decide, by decide,
    (c2_unitwise_norm_shape_error ⟨[2, 2, 1, 1, 1], [1, 2, 3, 4]⟩
      (by decide) (by decide)).1⟩

/-! ## Safety of the clipping arithmetic (C9) -/

/-- Claim C9: on well-formed inputs (both norms computed, covering zero
gradients and zero parameter norms) clipping always succeeds; gradient
norms are nonnegative, the divisor `max(grad_norm, 1e-6)` is at least
`1e-6` and strictly positive, and the floored parameter norm
`max(param_norm, eps)` is at least `eps`, so no division by zero occurs
(in this real-valued model no NaN exists and the strictly positive divisor
is exactly the no-division-by-zero guarantee). -/
theorem c9_no_div_by_zero (p g : Tensor) (c eps : ℝ) (pn gn : Tensor)
    (hp : unitwise_norm p = .ok pn) (hg : unitwise_norm g = .ok gn) :
    (∃ r, clip p g (some c) eps = .ok r) ∧
    (∀ u, 0 ≤ gn.data.getD u 0) ∧
    (∀ u, (1 / 1000000 : ℝ) ≤ max (gn.data.getD u 0) (1 / 1000000)) ∧
    (∀ u, 0 < max (gn.data.getD u 0) (1 / 1000000)) ∧
    (∀ u, eps ≤ max (pn.data.getD u 0) eps) := by
  have hgn : gn = normAt g := unitwise_norm_ok hg
  refine ⟨?_, ?_, ?_, ?_, ?_⟩
  · rcases hres : clip p g (some c) eps with s | r
    · exact absurd hres (by simp [clip, hp, hg])
    · exact ⟨r, rfl⟩
  · intro u
    rw [hgn]
    exact normAt_getD_nonneg g u
  · intro u
    exact le_max_right _ _
  · intro u
    exact lt_of_lt_of_le (by norm_num) (le_max_right _ _)
  · intro u
    exact le_max_right _ _

/-- Witness for `c9_no_div_by_zero` at a concrete input with a zero
gradient and a zero-norm parameter. -/
theorem c9_no_div_by_zero_witness :
    unitwise_norm ⟨[1], [0]⟩ = .ok (normAt ⟨[1], [0]⟩) ∧
    ((∃ r, clip ⟨[1], [0]⟩ ⟨[1], [0]⟩ (some 1) (1 / 1000) = .ok r) ∧
      (∀ u, 0 ≤ (normAt ⟨[1], [0]⟩).data.getD u 0) ∧
      (∀ u, (1 / 1000000 : ℝ) ≤
        max ((normAt ⟨[1], [0]⟩).data.getD u 0) (1 / 1000000)) ∧
      (∀ u, 0 < max ((normAt ⟨[1], [0]⟩).data.getD u 0) (1 / 1000000)) ∧
      (∀ u, (1 / 1000 : ℝ) ≤
        max ((normAt ⟨[1], [0]⟩).data.getD u 0) (1 / 1000))) := by
  have hok : unitwise_norm ⟨[1], [0]⟩ = .ok (normAt ⟨[1], [0]⟩) := by
    unfold unitwise_norm
    rw [if_pos]
    exact Or.inl (by decide)
  exact ⟨hok, c9_no_div_by_zero ⟨[1], [0]⟩ ⟨[1], [0]⟩ 1 (1 / 1000) _ _ hok hok⟩

/-! ## Clipping with a very large clip factor (C3) -/

theorem normAt_vec1 (a : ℝ) : normAt ⟨[1], [a]⟩ = ⟨[], [|a|]⟩ := by
  have hr1 : List.range 1 = [0] := rfl
  simp [normAt, unitCount, normShape, squeezeShape, unitIndex, hr1,
    List.filter, Real.sqrt_sq_eq_abs]

theorem unitwise_norm_vec1 {a : ℝ} (h : 0 ≤ a) :
    unitwise_norm ⟨[1], [a]⟩ = .ok ⟨[], [a]⟩ := by
  unfold unitwise_norm
  split_ifs with hcond
  · rw [normAt_vec1, abs_of_nonneg h]
  · exact absurd (Or.inl (by simp [squeezeShape])) hcond

/-- Claim C3, counterexample: with `clip_factor = 1e6`, the finite nonzero
inputs `p = [1.0]`, `g = [2e6]` (default `eps = 1e-3`) do trigger clipping:
`grad_norm = 2e6 > max(1, 1e-3) * 1e6 = 1e6`, and `clip` returns `[1e6]`,
not `g` unchanged. -/
theorem c3_counterexample :
    clip ⟨[1], [1]⟩ ⟨[1], [2000000]⟩ (some 1000000) (1 / 1000) =
      .ok ⟨[1], [1000000]⟩ ∧
    clip ⟨[1], [1]⟩ ⟨[1], [2000000]⟩ (some 1000000) (1 / 1000) ≠
      .ok ⟨[1], [2000000]⟩ := by
  have h1 : unitwise_norm ⟨[1], [1]⟩ = .ok ⟨[], [1]⟩ :=
    unitwise_norm_vec1 (by norm_num)
  have h2 : unitwise_norm ⟨[1], [2000000]⟩ = .ok ⟨[], [2000000]⟩ :=
    unitwise_norm_vec1 (by norm_num)
  have hmax1 : max (1 : ℝ) (1 / 1000) = 1 := max_eq_left (by norm_num)
  have hmax2 : max (2000000 : ℝ) (1 / 1000000) = 2000000 :=
    max_eq_left (by norm_num)
  constructor
  · simp only [clip, h1, h2, okBind]
    norm_num [unitIndex, squeezeShape, show List.range 1 = [0] from rfl, hmax1, hmax2]
  · simp only [clip, h1, h2, okBind]
    norm_num [unitIndex, squeezeShape, show List.range 1 = [0] from rfl, hmax1, hmax2]

/-- Claim C3, amended: with `clip_factor = 1e6`, `clip(p, g, 1e6, eps)`
returns `g` unchanged for every pair whose unitwise gradient norms are at
most `1e6` times the corresponding floored parameter norms (the trigger
`grad_norm > max(param_norm, eps) * 1e6` then holds for no unit).  The
restriction is forced: a finite nonzero pair can still trigger when its
gradient norm exceeds `1e6` times its floored parameter norm. -/
theorem c3_clip_large_factor_identity (p g : Tensor) (eps : ℝ)
    (pn gn : Tensor)
    (hp : unitwise_norm p = .ok pn) (hg : unitwise_norm g = .ok gn)
    (hno : ∀ u, gn.data.getD u 0 ≤ max (pn.data.getD u 0) eps * 1000000) :
    clip p g (some 1000000) eps = .ok g := by
  simp only [clip, hp, hg, okBind]
  have hdata : (List.range g.data.length).map
      (fun i =>
        let u := unitIndex g.shape i
        let maxNorm := (max (pn.data.getD u 0) eps) * 1000000
        let gradNorm := gn.data.getD u 0
        if gradNorm > maxNorm then
          g.data.getD i 0 * (maxNorm / max gradNorm (1 / 1000000))
        else
          g.data.getD i 0) = g.data := by
    rw [List.map_congr_left
      (fun i _ => if_neg (not_lt.2 (hno (unitIndex g.shape i))))]
    exact rangeMapGetD_self g.data
  rw [hdata]

/-- Witness for `c3_clip_large_factor_identity` at `p = g = [1.0]`,
`eps = 1e-3`. -/
theorem c3_clip_large_factor_identity_witness :
    unitwise_norm ⟨[1], [1]⟩ = .ok ⟨[], [1]⟩ ∧
    (∀ u, (⟨[], [1]⟩ : Tensor).data.getD u 0 ≤
      max ((⟨[], [1]⟩ : Tensor).data.getD u 0) (1 / 1000) * 1000000) ∧
    clip ⟨[1], [1]⟩ ⟨[1], [1]⟩ (some 1000000) (1 / 1000) =
      .ok ⟨[1], [1]⟩ := by
  have h1 : unitwise_norm ⟨[1], [1]⟩ = .ok ⟨[], [1]⟩ :=
    unitwise_norm_vec1 (by norm_num)
  have hno : ∀ u, (⟨[], [1]⟩ : Tensor).data.getD u 0 ≤
      max ((⟨[], [1]⟩ : Tensor).data.getD u 0) (1 / 1000) * 1000000 := by
    intro u
    match u with
    | 0 =>
      have : ((⟨[], [1]⟩ : Tensor)).data.getD 0 0 = 1 := rfl
      rw [this]
      calc (1 : ℝ) ≤ 1 * 1000000 := by norm_num
        _ ≤ max 1 (1 / 1000) * 1000000 := by
            have := le_max_left (1 : ℝ) (1 / 1000)
            nlinarith
    | u + 1 =>
      have : ((⟨[], [1]⟩ : Tensor)).data.getD (u + 1) 0 = 0 := rfl
      rw [this]
      have h := le_max_right ((0 : ℝ)) (1 / 1000)
      nlinarith [le_max_right ((0 : ℝ)) (1 / 1000)]
  exact ⟨h1, hno,
    c3_clip_large_factor_identity ⟨[1], [1]⟩ ⟨[1], [1]⟩ (1 / 1000)
      ⟨[], [1]⟩ ⟨[], [1]⟩ h1 h1 hno⟩

/-! ## Clipping caps the per-unit norm (C4) -/

theorem sum_map_sq_mul (l : List ℕ) (f : ℕ → ℝ) (k : ℝ) :
    (l.map (fun i => (f i * k) ^ 2)).sum =
      (l.map (fun i => f i ^ 2)).sum * k ^ 2 := by
  induction l with
  | nil => simp
  | cons a l ih =>
    simp only [List.map_cons, List.sum_cons, ih]
    ring

/-- Claim C4, amended: for a triggered unit
(`grad_norm > max(param_norm, eps) * clip_factor`), with a nonnegative clip
factor, the unitwise norm of the returned gradient at that unit is never
larger than `max(param_norm, eps) * clip_factor`, and it equals it exactly
whenever the unit's gradient norm is at least the `1e-6` divisor floor.
(When `grad_norm < 1e-6`, the divisor floor makes the rescaled norm
`grad_norm * max_norm / 1e-6 < max_norm`, so exact equality is forced to
carry the `1e-6` proviso.) -/
theorem c4_clip_caps_unit_norm (p g : Tensor) (c eps : ℝ) (pn gn r : Tensor)
    (hp : unitwise_norm p = .ok pn) (hg : unitwise_norm g = .ok gn)
    (hr : clip p g (some c) eps = .ok r) (hc : 0 ≤ c) (u : ℕ)
    (htrig : gn.data.getD u 0 > max (pn.data.getD u 0) eps * c) :
    (normAt r).data.getD u 0 ≤ max (pn.data.getD u 0) eps * c ∧
    ((1 / 1000000 : ℝ) ≤ gn.data.getD u 0 →
      (normAt r).data.getD u 0 = max (pn.data.getD u 0) eps * c) := by
  have hpn : pn = normAt p := unitwise_norm_ok hp
  have hgn : gn = normAt g := unitwise_norm_ok hg
  have hpnu0 : 0 ≤ pn.data.getD u 0 := by
    rw [hpn]
    exact normAt_getD_nonneg p u
  have hmx0 : 0 ≤ max (pn.data.getD u 0) eps * c :=
    mul_nonneg (le_trans hpnu0 (le_max_left _ _)) hc
  have hgnu0 : 0 < gn.data.getD u 0 := lt_of_le_of_lt hmx0 htrig
  have hu : u < unitCount g.shape := by
    by_contra hle
    push_neg at hle
    have h0 : gn.data.getD u 0 = 0 := by
      rw [hgn]
      apply List.getD_eq_default
      rw [normAt_data_length]
      exact hle
    rw [h0] at hgnu0
    exact lt_irrefl 0 hgnu0
  have hd0 : 0 < max (gn.data.getD u 0) (1 / 1000000 : ℝ) :=
    lt_of_lt_of_le (by norm_num) (le_max_right _ _)
  have hk0 : 0 ≤ max (pn.data.getD u 0) eps * c /
      max (gn.data.getD u 0) (1 / 1000000) := div_nonneg hmx0 (le_of_lt hd0)
  have hclip_eq : clip p g (some c) eps = Except.ok ⟨g.shape,
      (List.range g.data.length).map (fun i =>
        if gn.data.getD (unitIndex g.shape i) 0 >
            max (pn.data.getD (unitIndex g.shape i) 0) eps * c then
          g.data.getD i 0 *
            (max (pn.data.getD (unitIndex g.shape i) 0) eps * c /
              max (gn.data.getD (unitIndex g.shape i) 0) (1 / 1000000))
        else g.data.getD i 0)⟩ := by
    simp only [clip, hp, hg, okBind]
  rw [hclip_eq, Except.ok.injEq] at hr
  subst hr
  have hgnu_eq : gn.data.getD u 0 = Real.sqrt
      ((((List.range g.data.length).filter
        (fun i => unitIndex g.shape i = u)).map
        (fun i => (g.data.getD i 0) ^ 2)).sum) := by
    rw [hgn]
    exact normAt_getD_eq g hu
  have hkey : (normAt ⟨g.shape,
      (List.range g.data.length).map (fun i =>
        if gn.data.getD (unitIndex g.shape i) 0 >
            max (pn.data.getD (unitIndex g.shape i) 0) eps * c then
          g.data.getD i 0 *
            (max (pn.data.getD (unitIndex g.shape i) 0) eps * c /
              max (gn.data.getD (unitIndex g.shape i) 0) (1 / 1000000))
        else g.data.getD i 0)⟩).data.getD u 0 =
      gn.data.getD u 0 *
        (max (pn.data.getD u 0) eps * c /
          max (gn.data.getD u 0) (1 / 1000000)) := by
    rw [normAt_getD_eq2 g.shape _ hu]
    simp only [List.length_map, List.length_range]
    have hmapc : ((List.range g.data.length).filter
          (fun i => unitIndex g.shape i = u)).map
          (fun i => (((List.range g.data.length).map (fun i =>
            if gn.data.getD (unitIndex g.shape i) 0 >
                max (pn.data.getD (unitIndex g.shape i) 0) eps * c then
              g.data.getD i 0 *
                (max (pn.data.getD (unitIndex g.shape i) 0) eps * c /
                  max (gn.data.getD (unitIndex g.shape i) 0) (1 / 1000000))
            else g.data.getD i 0)).getD i 0) ^ 2)
        = ((List.range g.data.length).filter
          (fun i => unitIndex g.shape i = u)).map
          (fun i => (g.data.getD i 0 *
            (max (pn.data.getD u 0) eps * c /
              max (gn.data.getD u 0) (1 / 1000000))) ^ 2) := by
      apply List.map_congr_left
      intro i hi
      have hiu : unitIndex g.shape i = u := by
        have := (List.mem_filter.mp hi).2
        exact of_decide_eq_true this
      have hir : i < g.data.length := List.mem_range.mp (List.mem_filter.mp hi).1
      rw [rangeMapGetD _ _ hir]
      simp only [hiu]
      rw [if_pos htrig]
    rw [hmapc, sum_map_sq_mul, Real.sqrt_mul (sum_map_sq_nonneg _ _),
      Real.sqrt_sq hk0, ← hgnu_eq]
  constructor
  · rw [hkey]
    have hgd : gn.data.getD u 0 ≤ max (gn.data.getD u 0) (1 / 1000000) :=
      le_max_left _ _
    calc gn.data.getD u 0 *
          (max (pn.data.getD u 0) eps * c /
            max (gn.data.getD u 0) (1 / 1000000))
        = max (pn.data.getD u 0) eps * c *
            (gn.data.getD u 0 / max (gn.data.getD u 0) (1 / 1000000)) := by
          ring
      _ ≤ max (pn.data.getD u 0) eps * c * 1 :=
          mul_le_mul_of_nonneg_left ((div_le_one hd0).mpr hgd) hmx0
      _ = max (pn.data.getD u 0) eps * c := mul_one _
  · intro h16
    rw [hkey, max_eq_left h16, mul_comm,
      div_mul_cancel₀ _ (ne_of_gt hgnu0)]

/-- Claim C4, counterexample: with `eps = 1e-3`, `clip_factor = 1e-9`,
`p = [1.0]` and `g = [1e-7]`, the unit triggers
(`grad_norm = 1e-7 > max(1, 1e-3) * 1e-9 = 1e-9`), but the divisor floor
kicks in (`max(1e-7, 1e-6) = 1e-6`), so the returned gradient is
`[1e-10]` with unit norm `1e-10`, strictly below — not equal to —
`max(param_norm, eps) * clip_factor = 1e-9`. -/
theorem c4_counterexample :
    unitwise_norm ⟨[1], [1]⟩ = .ok ⟨[], [1]⟩ ∧
    unitwise_norm ⟨[1], [1/10000000]⟩ = .ok ⟨[], [1/10000000]⟩ ∧
    ((1/10000000 : ℝ) > max 1 (1/1000) * (1/1000000000)) ∧
    clip ⟨[1], [1]⟩ ⟨[1], [1/10000000]⟩ (some (1/1000000000)) (1/1000) =
      .ok ⟨[1], [1/10000000000]⟩ ∧
    (normAt ⟨[1], [1/10000000000]⟩).data.getD 0 0 = 1/10000000000 ∧
    (1/10000000000 : ℝ) ≠ max 1 (1/1000) * (1/1000000000) := by
  have h1 : unitwise_norm ⟨[1], [1]⟩ = .ok ⟨[], [1]⟩ :=
    unitwise_norm_vec1 (by norm_num)
  have h2 : unitwise_norm ⟨[1], [1/10000000]⟩ = .ok ⟨[], [1/10000000]⟩ :=
    unitwise_norm_vec1 (by norm_num)
  have hmax1 : max (1 : ℝ) (1 / 1000) = 1 := max_eq_left (by norm_num)
  have hmaxd : max (1/10000000 : ℝ) (1 / 1000000) = 1 / 1000000 :=
    max_eq_right (by norm_num)
  refine ⟨h1, h2, by rw [hmax1]; norm_num, ?_, ?_, ?_⟩
  · simp only [clip, h1, h2, okBind]
    norm_num [unitIndex, squeezeShape, show List.range 1 = [0] from rfl,
      hmax1, hmaxd]
  · rw [normAt_vec1]
    show |(1/10000000000 : ℝ)| = 1/10000000000
    rw [abs_of_nonneg (by norm_num)]
  · rw [hmax1]
    norm_num

/-- Witness for `c4_clip_caps_unit_norm` at `p = [1]`, `g = [2]`,
`clip_factor = 1`, `eps = 1`: the unit triggers (`2 > 1`), its gradient
norm `2` is above the `1e-6` floor, and the returned gradient `[1]` has
unit norm exactly `max(1, 1) * 1 = 1`. -/
theorem c4_clip_caps_unit_norm_witness :
    unitwise_norm ⟨[1], [1]⟩ = .ok ⟨[], [1]⟩ ∧
    unitwise_norm ⟨[1], [2]⟩ = .ok ⟨[], [2]⟩ ∧
    clip ⟨[1], [1]⟩ ⟨[1], [2]⟩ (some 1) 1 = .ok ⟨[1], [1]⟩ ∧
    (0 : ℝ) ≤ 1 ∧
    ((⟨[], [2]⟩ : Tensor)).data.getD 0 0 >
      max (((⟨[], [1]⟩ : Tensor)).data.getD 0 0) 1 * 1 ∧
    ((normAt ⟨[1], [1]⟩).data.getD 0 0 ≤
        max (((⟨[], [1]⟩ : Tensor)).data.getD 0 0) 1 * 1 ∧
      ((1 / 1000000 : ℝ) ≤ ((⟨[], [2]⟩ : Tensor)).data.getD 0 0 →
        (normAt ⟨[1], [1]⟩).data.getD 0 0 =
          max (((⟨[], [1]⟩ : Tensor)).data.getD 0 0) 1 * 1)) := by
  have h1 : unitwise_norm ⟨[1], [1]⟩ = .ok ⟨[], [1]⟩ :=
    unitwise_norm_vec1 (by norm_num)
  have h2 : unitwise_norm ⟨[1], [2]⟩ = .ok ⟨[], [2]⟩ :=
    unitwise_norm_vec1 (by norm_num)
  have hmax1 : max (1 : ℝ) 1 = 1 := max_self 1
  have hmax2 : max (2 : ℝ) (1 / 1000000) = 2 := max_eq_left (by norm_num)
  have hclip : clip ⟨[1], [1]⟩ ⟨[1], [2]⟩ (some 1) 1 = .ok ⟨[1], [1]⟩ := by
    simp only [clip, h1, h2, okBind]
    norm_num [unitIndex, squeezeShape, show List.range 1 = [0] from rfl,
      hmax1, hmax2]
  have htrig : ((⟨[], [2]⟩ : Tensor)).data.getD 0 0 >
      max (((⟨[], [1]⟩ : Tensor)).data.getD 0 0) 1 * 1 := by
    show (2 : ℝ) > max (1 : ℝ) 1 * 1
    rw [hmax1]
    norm_num
  exact ⟨h1, h2, hclip, by norm_num, htrig,
    c4_clip_caps_unit_norm ⟨[1], [1]⟩ ⟨[1], [2]⟩ 1 1 ⟨[], [1]⟩ ⟨[], [2]⟩
      ⟨[1], [1]⟩ h1 h2 hclip (by norm_num) 0 htrig⟩

end NFNet
